import Mathlib

/-!
A shallow embedding of the `SpAndrea117/Calculator` Rust sources
(`src/internal/shunting_yard.rs` composed by `src/internal/mod.rs`), and
theorems settling the frozen claims about its specification.  The live
pipeline is `estimate_expression = parse_expression_to_token_list → to_rpn →
compute`; the module `eval.rs` is dead code (never called) and is not
modelled.

Modelling conventions:
* Rust `i64` values are modelled as unbounded `Int`.  `i64` overflow (a wrap
  in release builds) and the overflow check in `str::parse::<i64>` are not
  modelled: no claim depends on a value near the 64-bit boundary.  Division
  uses `Int.div`, which truncates toward zero exactly like Rust `i64`
  division on in-range values.
* Rust panics (division by zero in `Operator::execute`, the two
  `unreachable!` arms on brackets, and `Vec::remove(0)` on an empty vector
  in `to_rpn`) are modelled by `Option` results, surfaced as the
  `EvalOutcome.crash` outcome of `estimate_expression`.
* `char::is_whitespace` (Unicode) is modelled by `Char.isWhitespace`; every
  claim only exercises the ASCII space.
* Rust `Vec` with `insert(0, _)`/`remove(0)`/`first()` is modelled as a
  `List` whose head is index 0; `Vec::push`/`Vec::pop`/`Vec::first` in the
  evaluator push and pop at the head of a `List` whose head is the top of
  the stack, so the Rust `first()` (bottom of the stack) is `getLast?`.
-/

namespace Calculator

/-- The `Operator` enum of `shunting_yard.rs`.  The constructor order is the
Rust declaration order, which fixes the derived `Ord` used by `to_rpn`. -/
inductive Operator
  | LeftBracket
  | RightBracket
  | Prod
  | Div
  | Sub
  | Add
deriving DecidableEq

/-- Position of a constructor in the Rust declaration order; the derived
`Ord` on the `Operator` enum compares these indices. -/
def Operator.idx : Operator → Nat
  | .LeftBracket => 0
  | .RightBracket => 1
  | .Prod => 2
  | .Div => 3
  | .Sub => 4
  | .Add => 5

/-- The `Token` enum of `shunting_yard.rs`. -/
inductive Token
  | Number (n : Int)
  | Operator (op : Calculator.Operator)
deriving DecidableEq

/-- The `shunting_yard::Error` enum.  `ParseInt` wraps a `std` error value
in Rust; its payload plays no role in any claim and is dropped. -/
inductive Error
  | InvalidRpn (s : String)
  | UnknownOperator (s : String)
  | ParseInt
  | InvalidExpression (s : String)
deriving DecidableEq

/-- The `OPERATORS` constant. -/
def OPERATORS : List Char := ['+', '-', '*', '/', '(', ')']

/-- `expression.retain(|c| !c.is_whitespace())`. -/
def stripWhitespace (l : List Char) : List Char :=
  l.filter (fun c => !c.isWhitespace)

/-- `expression.replace(TOKEN_FIXABLE_SEQUENCE, TOKEN_FIX_SEQUENCE)`, i.e. the
left-to-right non-overlapping replacement of `"-("` by `"-1*("`.  (The Rust
code guards the replacement with a `contains` test, which does not change
the result.) -/
def replaceFix : List Char → List Char
  | [] => []
  | [c] => [c]
  | c :: d :: rest =>
    if c = '-' ∧ d = '(' then '-' :: '1' :: '*' :: '(' :: replaceFix rest
    else c :: replaceFix (d :: rest)

/-- One adjacent pair of characters drawn from the fifteen two-character
`INVALID_TOKEN_PATTERNS` of `shunting_yard.rs`. -/
def invalidPair (a b : Char) : Bool :=
  (a == '-' && (b == '*' || b == '/' || b == ')')) ||
  (a == '+' && (b == '*' || b == '/' || b == ')')) ||
  (a == '*' && (b == '*' || b == '/' || b == ')')) ||
  (a == '/' && (b == '*' || b == '/' || b == ')')) ||
  (a == '(' && (b == '*' || b == '/')) ||
  (a == ')' && b == '(')

/-- `INVALID_TOKEN_PATTERNS.into_iter().any(|p| expr.contains(p))`.  Every
pattern has exactly two characters, so a substring occurrence is exactly an
adjacent pair of characters matching one of the patterns. -/
def hasInvalidPattern : List Char → Bool
  | a :: b :: rest => invalidPair a b || hasInvalidPattern (b :: rest)
  | _ => false

/-- `validate_token_list`: the numbers of `'('` and `')'` must agree and no
invalid two-character pattern may occur. -/
def validate_token_list (l : List Char) : Bool :=
  (l.count '(' == l.count ')') && !hasInvalidPattern l

/-- `str::split_inclusive`: each returned segment ends with a separator
character, except possibly the last one; no empty segments are returned. -/
def splitInclusiveGo (acc : List Char) : List Char → List (List Char)
  | [] => if acc.isEmpty then [] else [acc.reverse]
  | c :: rest =>
    if OPERATORS.contains c then (acc.reverse ++ [c]) :: splitInclusiveGo [] rest
    else splitInclusiveGo (c :: acc) rest

/-- The per-segment map of `parse_expression_to_token_list`.  The Rust
condition `v.chars().last().and_then(|c| Some(OPERATORS.contains(&c)))
.is_some()` is `true` for every non-empty segment (it never inspects the
Boolean), so every segment is `split_at(v.len() - 1)` unconditionally. -/
def segSplit (v : List Char) : List (List Char) :=
  [v.dropLast, v.drop (v.length - 1)]

/-- The flattened, empty-filtered token-string list: `split_inclusive` on
operator characters, each segment split before its final character, then
empty strings dropped. -/
def tokenStrings (l : List Char) : List (List Char) :=
  (((splitInclusiveGo [] l).map segSplit).foldr (· ++ ·) []).filter
    (fun p => !p.isEmpty)

/-- Digit-run accumulation of `str::parse::<i64>` (overflow not modelled). -/
def parseDigitsGo (acc : Nat) : List Char → Option Nat
  | [] => some acc
  | c :: rest =>
    if c.isDigit then parseDigitsGo (acc * 10 + (c.toNat - '0'.toNat)) rest
    else none

/-- `str::parse::<i64>`: an optional single leading sign followed by a
non-empty run of ASCII digits. -/
def parseI64 : List Char → Option Int
  | [] => none
  | '+' :: rest =>
    if rest.isEmpty then none else (parseDigitsGo 0 rest).map Int.ofNat
  | '-' :: rest =>
    if rest.isEmpty then none else
      (parseDigitsGo 0 rest).map (fun n => -(Int.ofNat n))
  | l => (parseDigitsGo 0 l).map Int.ofNat

/-- `Operator::try_from(third_to_last).is_ok_and(...)`: the previous-previous
token string is a single operator drawn from `Add | Sub | LeftBracket | Div
| Prod` (note: `RightBracket` is excluded). -/
def isWindowTtl (s : List Char) : Bool :=
  s == ['+'] || s == ['-'] || s == ['('] || s == ['/'] || s == ['*']

/-- `second_last` is a `'+'` or `'-'` sign string. -/
def isSign (s : List Char) : Bool :=
  s == ['+'] || s == ['-']

/-- The sliding three-token window of `parse_expression_to_token_list`: the
arguments `ttl`/`sl` are the updated `third_to_last`/`second_last` seen when
the current element `v` is processed (initially both empty).  A merge
replaces `v` by `second_last ++ v` and records index `i - 1` for removal. -/
def mergePass (ttl sl : List Char) (i : Nat) :
    List (List Char) → List (List Char) × List Nat
  | [] => ([], [])
  | v :: rest =>
    let doMerge := isWindowTtl ttl && isSign sl && (parseI64 v).isSome
    let pr := mergePass sl v (i + 1) rest
    ((if doMerge then sl ++ v else v) :: pr.1,
     if doMerge then (i - 1) :: pr.2 else pr.2)

/-- The recorded indices are removed in descending order in Rust, which (for
distinct indices, and merge positions are strictly increasing) is the same
as keeping exactly the elements whose index is not recorded. -/
def windowMerge (l : List (List Char)) : List (List Char) :=
  let pr := mergePass [] [] 0 l
  ((pr.1.enum).filter (fun p => !(pr.2.contains p.1))).map (fun p => p.2)

/-- `Operator::try_from(&str)`. -/
def tryFromStr (s : List Char) : Except Error Operator :=
  if s == ['*'] then .ok .Prod
  else if s == ['/'] then .ok .Div
  else if s == ['+'] then .ok .Add
  else if s == ['-'] then .ok .Sub
  else if s == ['('] then .ok .LeftBracket
  else if s == [')'] then .ok .RightBracket
  else .error (.UnknownOperator (String.mk s))

/-- The final token-string to `Token` map of `parse_expression_to_token_list`:
a string equal to one of the six operator strings becomes an operator token,
anything else is parsed as an `i64` number. -/
def strToToken (s : List Char) : Except Error Token :=
  if OPERATORS.any (fun c => s == [c]) then
    (tryFromStr s).map Token.Operator
  else
    match parseI64 s with
    | some n => .ok (.Number n)
    | none => .error .ParseInt

/-- The local `expression` of `parse_expression_to_token_list` after the
whitespace `retain` and the `"-("` replacement. -/
def processedOf (expr : String) : List Char :=
  replaceFix (stripWhitespace expr.data)

/-- `parse_expression_to_token_list`: strip whitespace, rewrite `"-("` to
`"-1*("`, validate (failing with `InvalidExpression` carrying the original
expression), then split, sign-merge and convert to tokens. -/
def parse_expression_to_token_list (expr : String) :
    Except Error (List Token) :=
  if validate_token_list (processedOf expr) then
    (windowMerge (tokenStrings (processedOf expr))).mapM strToToken
  else
    .error (.InvalidExpression expr)

/-- The pop loop of the arithmetic-operator arm of `to_rpn`: pop operators
from the stack onto the front of the output queue while the stack top is not
a left bracket and compares `le` (in the derived `Ord`) to the incoming
operator. -/
def popGe (op : Operator) : List Operator → List Token →
    List Operator × List Token
  | [], q => ([], q)
  | st :: rest, q =>
    if st ≠ Operator.LeftBracket ∧ st.idx ≤ op.idx then
      popGe op rest (Token.Operator st :: q)
    else (st :: rest, q)

/-- The pop loop of the right-bracket arm of `to_rpn`: pop operators onto
the front of the output queue until the stack top is a left bracket (or the
stack is empty). -/
def popUntilLB : List Operator → List Token → List Operator × List Token
  | [], q => ([], q)
  | st :: rest, q =>
    if st ≠ Operator.LeftBracket then popUntilLB rest (Token.Operator st :: q)
    else (st :: rest, q)

/-- The token loop of `to_rpn`, carrying the operator stack and the output
queue (both head-at-index-0, as in the Rust `insert(0, _)` pattern).  The
right-bracket arm ends with `operator_stack.remove(0)`, which panics when
the stack is empty: that is the `none` result.  After the loop the remaining
operators are inserted at the front of the queue in stack order. -/
def toRpnGo : List Token → List Operator → List Token → Option (List Token)
  | [], stack, q => some ((stack.reverse.map Token.Operator) ++ q)
  | Token.Number n :: ts, stack, q => toRpnGo ts stack (Token.Number n :: q)
  | Token.Operator .LeftBracket :: ts, stack, q =>
    toRpnGo ts (Operator.LeftBracket :: stack) q
  | Token.Operator .RightBracket :: ts, stack, q =>
    match popUntilLB stack q with
    | ([], _) => none
    | (_ :: rest, q2) => toRpnGo ts rest q2
  | Token.Operator op :: ts, stack, q =>
    match popGe op stack q with
    | (rest, q2) => toRpnGo ts (op :: rest) q2

/-- `ShuntingYard::to_rpn` run from the empty stack and queue, returning the
final output queue; `none` models the panic of `remove(0)` on an empty
operator stack. -/
def to_rpn (tokens : List Token) : Option (List Token) :=
  toRpnGo tokens [] []

/-- `Operator::execute`.  The bracket arms are `unreachable!` panics and a
zero divisor panics in Rust; both are `none`.  `Int.tdiv` truncates toward
zero, as Rust `i64` division does. -/
def Operator.execute : Operator → Int → Int → Option Int
  | .LeftBracket, _, _ => none
  | .RightBracket, _, _ => none
  | .Prod, v1, v2 => some (v1 * v2)
  | .Div, v1, v2 => if v2 = 0 then none else some (Int.tdiv v1 v2)
  | .Add, v1, v2 => some (v1 + v2)
  | .Sub, v1, v2 => some (v1 - v2)

/-- `String::from(&Token)`, used to pretty-print the RPN queue for the
`InvalidRpn` error before evaluation; its bracket arms are `unreachable!`
panics (`none`). -/
def tokenToString : Token → Option String
  | .Number n => some (toString n)
  | .Operator .Prod => some "*"
  | .Operator .Div => some "/"
  | .Operator .Add => some "+"
  | .Operator .Sub => some "-"
  | .Operator .LeftBracket => none
  | .Operator .RightBracket => none

/-- The `rpn_str` diagnostic string of `ShuntingYard::compute`: the queue in
`Vec` order, stringified and joined by `", "`. -/
def rpnStr (q : List Token) : Option String :=
  (q.mapM tokenToString).map (fun l => String.intercalate ", " l)

/-- The pop loop of `ShuntingYard::compute`.  The Rust loop pops tokens from
the tail of the queue `Vec`, so the argument here is the reversed queue.
The operand stack has its top at the head (Rust pushes at the tail).  When
an operator finds fewer than two operands, both pops have already emptied
the stack and the loop breaks: the result is `some []`.  A panic inside
`Operator::execute` is `none`. -/
def computeGo : List Token → List Int → Option (List Int)
  | [], stack => some stack
  | Token.Number n :: ts, stack => computeGo ts (n :: stack)
  | Token.Operator op :: ts, stack =>
    match stack with
    | v2 :: v1 :: rest =>
      match op.execute v1 v2 with
      | some r => computeGo ts (r :: rest)
      | none => none
    | _ => some []

/-- The outcome of one `estimate_expression` call: a value, a typed error,
or a process panic. -/
inductive EvalOutcome
  | ok (v : Int)
  | err (e : Error)
  | crash
deriving DecidableEq

/-- `ShuntingYard::compute`: stringify the queue (which can panic on
brackets), run the pop loop, then return `stack.first()` — the bottom of
the operand stack — or `InvalidRpn` with the diagnostic string when the
stack ended empty. -/
def compute (q : List Token) : EvalOutcome :=
  match rpnStr q with
  | none => .crash
  | some s =>
    match computeGo q.reverse [] with
    | none => .crash
    | some stack =>
      match stack.getLast? with
      | some v => .ok v
      | none => .err (.InvalidRpn s)

/-- `estimate_expression` in `mod.rs`: build the `ShuntingYard` (failing
with the tokenizer's error), convert to RPN, and compute. -/
def estimate_expression (expr : String) : EvalOutcome :=
  match parse_expression_to_token_list expr with
  | .error e => .err e
  | .ok tokens =>
    match to_rpn tokens with
    | none => .crash
    | some q => compute q

/-- Claim-side predicate (C6): some `'*'` or `'/'` is immediately preceded
by another arithmetic operator `'+'`, `'-'`, `'*'` or `'/'`. -/
def containsBadPair : List Char → Bool
  | a :: b :: rest =>
    ((a == '+' || a == '-' || a == '*' || a == '/') && (b == '*' || b == '/'))
      || containsBadPair (b :: rest)
  | _ => false

/-- Claim-side transformation (C10): the input string with every occurrence
of `"-("` replaced by `"-1*("`. -/
def replaceTokenFix (e : String) : String :=
  String.mk (replaceFix e.data)

/-- Outcome up to the error payload of `InvalidExpression`, which quotes the
original input: "the same result (or same error kind)". -/
def outcomeKind : EvalOutcome → EvalOutcome
  | .err (.InvalidExpression _) => .err (.InvalidExpression "")
  | o => o

/-! Helper lemmas about `replaceFix`, `stripWhitespace` and the invalid
pattern scan. -/

theorem replaceFix_pattern (r : List Char) :
    replaceFix ('-' :: '(' :: r) = '-' :: '1' :: '*' :: '(' :: replaceFix r := by
  simp [replaceFix]

theorem replaceFix_cons_of_not (c d : Char) (r : List Char)
    (h : ¬(c = '-' ∧ d = '(')) :
    replaceFix (c :: d :: r) = c :: replaceFix (d :: r) := by
  simp only [replaceFix]
  rw [if_neg h]

theorem replaceFix_cons_ne (c : Char) (t : List Char) (h : c ≠ '-') :
    replaceFix (c :: t) = c :: replaceFix t := by
  cases t with
  | nil => rfl
  | cons d r => exact replaceFix_cons_of_not c d r (fun hp => h hp.1)

theorem replaceFix_head (c : Char) (r : List Char) :
    ∃ t, replaceFix (c :: r) = c :: t := by
  cases r with
  | nil => exact ⟨[], rfl⟩
  | cons d r2 =>
    by_cases hp : c = '-' ∧ d = '('
    · obtain ⟨h1, h2⟩ := hp
      subst h1; subst h2
      exact ⟨'1' :: '*' :: '(' :: replaceFix r2, replaceFix_pattern r2⟩
    · exact ⟨replaceFix (d :: r2), replaceFix_cons_of_not c d r2 hp⟩

theorem strip_cons_ws (c : Char) (l : List Char) (h : c.isWhitespace = true) :
    stripWhitespace (c :: l) = stripWhitespace l := by
  simp [stripWhitespace, List.filter_cons, h]

theorem strip_cons_nws (c : Char) (l : List Char) (h : c.isWhitespace = false) :
    stripWhitespace (c :: l) = c :: stripWhitespace l := by
  simp [stripWhitespace, List.filter_cons, h]

/-- `replaceFix` respects lists with the same `replaceFix` image and the
same head: prepending a common character preserves the image. -/
theorem replaceFix_congr_cons (c : Char) (A B : List Char)
    (h1 : replaceFix A = replaceFix B) (h2 : A.head? = B.head?) :
    replaceFix (c :: A) = replaceFix (c :: B) := by
  by_cases hc : c = '-'
  · subst hc
    cases A with
    | nil =>
      cases B with
      | nil => rfl
      | cons b B2 => simp at h2
    | cons a A2 =>
      cases B with
      | nil => simp at h2
      | cons b B2 =>
        have hab : a = b := by simpa using h2
        subst hab
        by_cases ha : a = '('
        · subst ha
          rw [replaceFix_pattern, replaceFix_pattern]
          rw [replaceFix_cons_ne '(' A2 (by decide),
              replaceFix_cons_ne '(' B2 (by decide)] at h1
          simp only [List.cons.injEq, true_and] at h1
          rw [h1]
        · have hnp : ¬('-' = '-' ∧ a = '(') := fun hx => ha hx.2
          rw [replaceFix_cons_of_not _ _ _ hnp, replaceFix_cons_of_not _ _ _ hnp,
            h1]
  · rw [replaceFix_cons_ne c A hc, replaceFix_cons_ne c B hc, h1]

/-- Replacing `"-("` by `"-1*("`, stripping whitespace, and replacing again
is the same as stripping and replacing once: the raw replacement only
pre-performs rewrites the pipeline would do anyway.  The second component
(heads agree) is the invariant needed for the induction. -/
theorem replaceFix_strip_comm : (l : List Char) →
    replaceFix (stripWhitespace (replaceFix l)) =
        replaceFix (stripWhitespace l) ∧
      (stripWhitespace (replaceFix l)).head? = (stripWhitespace l).head?
  | [] => ⟨rfl, rfl⟩
  | [c] => ⟨rfl, rfl⟩
  | c :: d :: rest => by
    by_cases hp : c = '-' ∧ d = '('
    · obtain ⟨h1, h2⟩ := hp
      subst h1; subst h2
      obtain ⟨IH1, IH2⟩ := replaceFix_strip_comm rest
      constructor
      · rw [replaceFix_pattern,
            strip_cons_nws '-' _ (by decide), strip_cons_nws '1' _ (by decide),
            strip_cons_nws '*' _ (by decide), strip_cons_nws '(' _ (by decide),
            replaceFix_cons_of_not '-' '1' _ (by decide),
            replaceFix_cons_of_not '1' '*' _ (by decide),
            replaceFix_cons_of_not '*' '(' _ (by decide),
            replaceFix_cons_ne '(' _ (by decide),
            IH1,
            strip_cons_nws '-' _ (by decide), strip_cons_nws '(' _ (by decide),
            replaceFix_pattern]
      · rw [replaceFix_pattern,
            strip_cons_nws '-' _ (by decide), strip_cons_nws '1' _ (by decide),
            strip_cons_nws '*' _ (by decide), strip_cons_nws '(' _ (by decide),
            strip_cons_nws '-' _ (by decide), strip_cons_nws '(' _ (by decide)]
        rfl
    · obtain ⟨IH1, IH2⟩ := replaceFix_strip_comm (d :: rest)
      rw [replaceFix_cons_of_not c d rest hp]
      cases hw : c.isWhitespace with
      | true =>
        constructor
        · rw [strip_cons_ws c _ hw, strip_cons_ws c _ hw]
          exact IH1
        · rw [strip_cons_ws c _ hw, strip_cons_ws c _ hw]
          exact IH2
      | false =>
        constructor
        · rw [strip_cons_nws c _ hw, strip_cons_nws c _ hw]
          exact replaceFix_congr_cons c _ _ IH1 IH2
        · rw [strip_cons_nws c _ hw, strip_cons_nws c _ hw]
          simp

theorem pair_imp_invalid (a b : Char)
    (h : ((a == '+' || a == '-' || a == '*' || a == '/') &&
      (b == '*' || b == '/')) = true) : invalidPair a b = true := by
  simp only [Bool.and_eq_true, Bool.or_eq_true, beq_iff_eq] at h
  obtain ⟨ha, hb⟩ := h
  rcases hb with h2 | h2 <;> subst h2 <;>
    rcases ha with ((h1 | h1) | h1) | h1 <;> subst h1 <;> decide

theorem containsBadPair_cons (c : Char) (t : List Char)
    (h : containsBadPair t = true) : containsBadPair (c :: t) = true := by
  cases t with
  | nil => simp [containsBadPair] at h
  | cons a r => simp [containsBadPair, h]

theorem containsBadPair_of_lb (t : List Char)
    (h : containsBadPair ('(' :: t) = true) : containsBadPair t = true := by
  cases t with
  | nil => simp [containsBadPair] at h
  | cons a r =>
    have h2 : ((('(' == '+' || '(' == '-' || '(' == '*' || '(' == '/') &&
        (a == '*' || a == '/')) || containsBadPair (a :: r)) = true := h
    rw [show ('(' == '+' || '(' == '-' || '(' == '*' || '(' == '/') = false
        from by decide, Bool.false_and, Bool.false_or] at h2
    exact h2

theorem containsBadPair_imp_hasInvalid : (l : List Char) →
    containsBadPair l = true → hasInvalidPattern l = true
  | [], h => by simp [containsBadPair] at h
  | [a], h => by simp [containsBadPair] at h
  | a :: b :: rest, h => by
    have h2 : (((a == '+' || a == '-' || a == '*' || a == '/') &&
        (b == '*' || b == '/')) || containsBadPair (b :: rest)) = true := h
    have target : hasInvalidPattern (a :: b :: rest) =
        (invalidPair a b || hasInvalidPattern (b :: rest)) := rfl
    cases hb : ((a == '+' || a == '-' || a == '*' || a == '/') &&
        (b == '*' || b == '/')) with
    | true =>
      rw [target, pair_imp_invalid a b hb, Bool.true_or]
    | false =>
      rw [hb, Bool.false_or] at h2
      rw [target, containsBadPair_imp_hasInvalid (b :: rest) h2, Bool.or_true]

theorem containsBadPair_replaceFix : (l : List Char) →
    containsBadPair l = true → containsBadPair (replaceFix l) = true
  | [], h => by simp [containsBadPair] at h
  | [c], h => by simp [containsBadPair] at h
  | c :: d :: rest, h => by
    have h2 : (((c == '+' || c == '-' || c == '*' || c == '/') &&
        (d == '*' || d == '/')) || containsBadPair (d :: rest)) = true := h
    by_cases hp : c = '-' ∧ d = '('
    · obtain ⟨h1, hd⟩ := hp
      subst h1; subst hd
      rw [show (('-' == '+' || '-' == '-' || '-' == '*' || '-' == '/') &&
          ('(' == '*' || '(' == '/')) = false from by decide,
        Bool.false_or] at h2
      have h3 : containsBadPair rest = true := containsBadPair_of_lb rest h2
      have h6 := containsBadPair_replaceFix rest h3
      rw [replaceFix_pattern]
      exact containsBadPair_cons _ _ (containsBadPair_cons _ _
        (containsBadPair_cons _ _ (containsBadPair_cons _ _ h6)))
    · rw [replaceFix_cons_of_not c d rest hp]
      cases hfirst : ((c == '+' || c == '-' || c == '*' || c == '/') &&
          (d == '*' || d == '/')) with
      | true =>
        obtain ⟨t, ht⟩ := replaceFix_head d rest
        rw [ht]
        have target : containsBadPair (c :: d :: t) =
            (((c == '+' || c == '-' || c == '*' || c == '/') &&
              (d == '*' || d == '/')) || containsBadPair (d :: t)) := rfl
        rw [target, hfirst, Bool.true_or]
      | false =>
        rw [hfirst, Bool.false_or] at h2
        exact containsBadPair_cons c _ (containsBadPair_replaceFix (d :: rest) h2)

theorem getLast?_cons_some (x : Int) (r : List Int) :
    ∃ v, (x :: r).getLast? = some v := by
  induction r generalizing x with
  | nil => exact ⟨x, rfl⟩
  | cons y r2 ih =>
    obtain ⟨v, hv⟩ := ih y
    exact ⟨v, by rw [List.getLast?_cons_cons, hv]⟩

/-! The claims. -/

/-- Claim C1 (code_bug): the claim asserts that `Multiply` and `Divide` have
equal precedence and associate to the left, so that `evaluate("8/2*4")`
is `Ok(16)`.  In the code the derived `Ord` on the `Operator` enum makes
`Prod` strictly smaller than `Div`, so an incoming `*` never pops a `/` from
the operator stack and `"8/2*4"` is grouped as `8/(2*4)`, returning `Ok(1)`.
The claim's second example `"(3+4)+7*2-1-9" = Ok(11)` does hold. -/
theorem c1_mul_div_precedence_eval :
    estimate_expression "8/2*4" = .ok 1 ∧
    estimate_expression "(3+4)+7*2-1-9" = .ok 11 := by
  constructor
  · decide
  · decide

/-- Claim C2 (code_bug): the claim asserts that dividing by zero yields a
typed arithmetic error; in the code `Operator::execute` computes `v1 / v2`,
which panics in Rust when `v2 = 0`, and the error enum has no arithmetic
variant at all, so `"1/0"` crashes instead of returning `Err`. -/
theorem c2_division_by_zero_crashes :
    estimate_expression "1/0" = .crash := by decide

/-- Claim C3 (code_bug): the claim asserts `estimate_expression` never
panics and that `")3("` yields a typed error.  In the code the right-bracket
arm of `to_rpn` ends with `operator_stack.remove(0)`, which panics when the
stack is empty — exactly what happens on `")3("` (its bracket counts match,
so tokenization succeeds). -/
theorem c3_misnested_brackets_crash :
    estimate_expression ")3(" = .crash := by decide

/-- Claim C4 counterexample: `"(1+2"` does not pass tokenization; it is
rejected by `validate_token_list` (unequal bracket counts) with
`InvalidExpression`, not later during evaluation as `InvalidRpn`. -/
theorem c4_unbalanced_rejected_at_tokenization :
    estimate_expression "(1+2" = .err (.InvalidExpression "(1+2") := by decide

/-- Claim C4 as amended: unequal bracket counts (e.g. `"(1+2"`) are rejected
already during tokenization as `InvalidExpression`; the conversion stage
itself has no error return, and only balanced-count malformed inputs (e.g.
`"()"`) reach evaluation, surfacing there as `InvalidRpn`. -/
theorem c4_amended :
    parse_expression_to_token_list "(1+2" =
        .error (.InvalidExpression "(1+2") ∧
    estimate_expression "()" = .err (.InvalidRpn "") := by
  constructor
  · rfl
  · decide

/-- Claim C5 counterexample: the tokenizer does not collapse every run of
consecutive signs; a run of three signs is left alone, so `"9---3"` (which
sign-multiplication would evaluate as `9-3 = 6`) instead produces the token
list `9 - - (-3)` and fails as `InvalidRpn`. -/
theorem c5_triple_sign_run_fails :
    estimate_expression "9---3" = .err (.InvalidRpn "-, -3, -, 9") := by decide

/-- Claim C5 as amended: the tokenizer folds exactly one pair of adjacent
signs whose second member is `+` or `-` directly before a number, merging
the second sign into the number (sign-multiplication at the value level, so
`"9--3"` tokenizes as `9 - (-3)`); longer runs are not collapsed.  The two
quoted evaluations hold: `evaluate("4 + 18/(9--3)") = Ok(5)` and
`evaluate("4+18/(9-+3)") = Ok(7)`. -/
theorem c5_amended :
    estimate_expression "4 + 18/(9--3)" = .ok 5 ∧
    estimate_expression "4+18/(9-+3)" = .ok 7 ∧
    parse_expression_to_token_list "9--3" =
      .ok [.Number 9, .Operator .Sub, .Number (-3)] := by
  refine ⟨by decide, by decide, by rfl⟩

/-- Claim C6: whenever the whitespace-stripped input contains a `*` or `/`
immediately preceded by another arithmetic operator (`+`, `-`, `*`, `/`),
tokenization rejects the input with a typed syntax error (the
`InvalidExpression` variant quoting the input) and evaluation never returns
a numeric result. -/
theorem c6_adjacent_mul_div_rejected (e : String)
    (h : containsBadPair (stripWhitespace e.data) = true) :
    estimate_expression e = .err (.InvalidExpression e) := by
  have h2 : containsBadPair (processedOf e) = true :=
    containsBadPair_replaceFix _ h
  have h3 : hasInvalidPattern (processedOf e) = true :=
    containsBadPair_imp_hasInvalid _ h2
  have h4 : validate_token_list (processedOf e) = false := by
    unfold validate_token_list
    rw [h3]
    simp
  unfold estimate_expression parse_expression_to_token_list
  rw [h4]
  simp

/-- Claim C6 witness: both of the claim's examples contain such a pair after
whitespace removal, and both are rejected. -/
theorem c6_adjacent_mul_div_rejected_witness :
    containsBadPair (stripWhitespace ("4 + 18/(9-*3)").data) = true ∧
    estimate_expression "4 + 18/(9-*3)" =
        .err (.InvalidExpression "4 + 18/(9-*3)") ∧
    estimate_expression "4 + 18/(9-/3)" =
        .err (.InvalidExpression "4 + 18/(9-/3)") :=
  ⟨by decide, c6_adjacent_mul_div_rejected "4 + 18/(9-*3)" (by decide),
    c6_adjacent_mul_div_rejected "4 + 18/(9-/3)" (by decide)⟩

/-- Claim C7 counterexample: `evaluate("-7/2")` is not a number at all: a
leading `-` has no left operand, so the RPN evaluator underflows and the
call returns `Err(InvalidRpn)` (quoting the RPN queue), not the truncated
quotient. -/
theorem c7_leading_minus_invalid_rpn :
    estimate_expression "-7/2" = .err (.InvalidRpn "-, /, 2, 7") := by decide

/-- Claim C7 as amended: `evaluate("7/2") = Ok(3)`; division by the code's
`Operator::execute` truncates toward zero (`-7/2` executes to `-3`), which
is observable through `evaluate("(0-7)/2") = Ok(-3)`; but the expression
`"-7/2"` itself returns `Err(InvalidRpn)` because the leading minus lacks a
left operand. -/
theorem c7_amended :
    estimate_expression "7/2" = .ok 3 ∧
    Operator.execute .Div (-7) 2 = some (-3) ∧
    estimate_expression "(0-7)/2" = .ok (-3) := by
  refine ⟨by decide, by decide, by decide⟩

/-- Claim C8: `compute` returns `Err(InvalidRpn)` exactly when its operand
stack is empty once the loop has finished, and when the final stack is
non-empty it returns the bottom (first-pushed) operand — the
`stack.first()` of the Rust code, i.e. `getLast?` of the head-is-top model —
so `estimate_expression("1(2)") = Ok(1)` although the input is not a
well-formed arithmetic expression. -/
theorem c8_compute_bottom_of_stack :
    estimate_expression "1(2)" = .ok 1 ∧
    ∀ (q : List Token) (s : String), rpnStr q = some s →
      ((compute q = .err (.InvalidRpn s)) ↔ computeGo q.reverse [] = some []) ∧
      (∀ (st : List Int) (v : Int), computeGo q.reverse [] = some st →
        st.getLast? = some v → compute q = .ok v) := by
  constructor
  · decide
  · intro q s hs
    cases hg : computeGo q.reverse [] with
    | none =>
      have hcomp : compute q = .crash := by
        unfold compute
        rw [hs, hg]
      refine ⟨by rw [hcomp]; simp, ?_⟩
      intro st v hst hlast
      exact Option.noConfusion hst
    | some stack =>
      cases stack with
      | nil =>
        have hcomp : compute q = .err (.InvalidRpn s) := by
          unfold compute
          rw [hs, hg]
          rfl
        refine ⟨by rw [hcomp]; simp, ?_⟩
        intro st v hst hlast
        injection hst with h
        subst h
        exact absurd hlast (by simp)
      | cons x r =>
        obtain ⟨w, hw⟩ := getLast?_cons_some x r
        have hcomp : compute q = .ok w := by
          unfold compute
          rw [hs, hg]
          simp [hw]
        refine ⟨by rw [hcomp]; simp, ?_⟩
        intro st v hst hlast
        injection hst with h
        subst h
        rw [hw] at hlast
        injection hlast with h2
        rw [hcomp, h2]

/-- Claim C8 witness: the characterization applied at the empty queue, whose
diagnostic string is empty and whose final stack is empty. -/
theorem c8_compute_bottom_of_stack_witness :
    rpnStr ([] : List Token) = some "" ∧
    ((compute ([] : List Token) = .err (.InvalidRpn "")) ↔
      computeGo ([] : List Token).reverse [] = some []) :=
  ⟨rfl, (c8_compute_bottom_of_stack.2 [] "" rfl).1⟩

/-- Claim C9 (code_bug): the claim asserts that deleting whitespace merges
`"1 2"` into the single number 12, so `estimate_expression("1 2") = Ok(12)`.
Whitespace is indeed deleted first, but the tokenizer's segment-splitting
condition (`.and_then(|c| Some(...)).is_some()`, true for every non-empty
segment) splits the trailing digit run `"12"` into the two number tokens `1`
and `2`, and the evaluator then returns the bottom of its operand stack:
the call returns `Ok(1)`, as it does for the whitespace-free `"12"`. -/
theorem c9_whitespace_merge_eval :
    estimate_expression "1 2" = .ok 1 ∧
    estimate_expression "12" = .ok 1 := by
  refine ⟨by decide, by decide⟩

/-- Claim C10: rewriting every `"-("` of the input to `"-1*("` before
calling `estimate_expression` yields the same result, or an error of the
same kind (the `InvalidExpression` payload quotes the original string, which
is exactly the difference `outcomeKind` ignores); and subtraction of a
bracketed group is computed through the rewrite as multiplication by `-1`:
`estimate_expression("2-(3+4)") = Ok(-5)`. -/
theorem c10_minus_bracket_rewrite :
    (∀ e : String, outcomeKind (estimate_expression e) =
      outcomeKind (estimate_expression (replaceTokenFix e))) ∧
    estimate_expression "2-(3+4)" = .ok (-5) := by
  constructor
  · intro e
    have hp : processedOf (replaceTokenFix e) = processedOf e :=
      (replaceFix_strip_comm e.data).1
    unfold estimate_expression parse_expression_to_token_list
    rw [hp]
    cases hv : validate_token_list (processedOf e) with
    | true => simp [hv]
    | false =>
      simp only [hv, Bool.false_eq_true, if_false]
      rfl
  · decide

end Calculator

